import Mathlib

/-!
Verification development for the box/geometry data model, page layout and
page orchestration of a document-digitization core (`page/ocr_box.py`,
`page/page_layout.py`, `page/page.py`, `ocr_engine/ocr_result_writer.py`).

The Python code is shallowly embedded: classes become structures, methods
become functions, in-place mutation becomes explicit state passing, and
fallible operations return `Except`/`Option`.  Machine integers are `Int`
(Python integers are unbounded), floats are modelled as `ℚ`.
-/

/-- A Python value as it occurs in the structural records ("dicts") used by
`to_dict`/`from_dict`: `None`, `int`, `float`, `str`, nested dict, list. -/
inductive DVal where
  | null : DVal
  | int (n : Int) : DVal
  | float (q : ℚ) : DVal
  | str (s : String) : DVal
  | dict (d : List (String × DVal)) : DVal
  | list (l : List DVal) : DVal

/-- A Python dict with string keys, as an association list in insertion
order (the order `to_dict` builds it in). -/
abbrev Dict := List (String × DVal)

mutual

/-- Python `==` on record values. -/
def DVal.beq : DVal → DVal → Bool
  | .null, .null => true
  | .int a, .int b => a == b
  | .float a, .float b => a == b
  | .str a, .str b => a == b
  | .dict a, .dict b => DVal.beqPairs a b
  | .list a, .list b => DVal.beqList a b
  | _, _ => false

/-- Python `==` on dicts (with keys compared in insertion order, which is
how the embedded records are always built). -/
def DVal.beqPairs : List (String × DVal) → List (String × DVal) → Bool
  | [], [] => true
  | (k1, v1) :: r1, (k2, v2) :: r2 =>
    k1 == k2 && DVal.beq v1 v2 && DVal.beqPairs r1 r2
  | _, _ => false

/-- Python `==` on lists of record values. -/
def DVal.beqList : List DVal → List DVal → Bool
  | [], [] => true
  | v1 :: r1, v2 :: r2 => DVal.beq v1 v2 && DVal.beqList r1 r2
  | _, _ => false

end

/-- `d.get(k)` on a Python dict: the value at the first matching key. -/
def dictGet (d : Dict) (k : String) : Option DVal :=
  match d with
  | [] => none
  | (k', v) :: rest => if k' = k then some v else dictGet rest k

/-- `d.get(k, default)`. -/
def dictGetD (d : Dict) (k : String) (default : DVal) : DVal :=
  (dictGet d k).getD default

/-- Python truthiness of a record value (`if not x`): `None`, `0`, `""`,
empty dict and empty list are falsy. -/
def DVal.truthy : DVal → Bool
  | .null => false
  | .int n => n != 0
  | .float q => q != 0
  | .str s => s != ""
  | .dict d => !d.isEmpty
  | .list l => !l.isEmpty

/-- `d1.update(d2)` on Python dicts: existing keys keep their position and
take `d2`'s value; keys new in `d2` are appended in `d2`'s order. -/
def dictUpdate (d1 d2 : Dict) : Dict :=
  d1.map (fun (k, v) => (k, (dictGet d2 k).getD v)) ++
    d2.filter (fun (k, _) => (dictGet d1 k).isNone)

/-- Modelled from the spec: the `BoxType` enumeration (`page/box_type.py` is
not among the sources); its members are the keys of `BOX_TYPE_MAP` in
`page/ocr_box.py` plus `IGNORE` (used by `page/page.py`). -/
inductive BoxType where
  | UNKNOWN | FLOWING_TEXT | HEADING_TEXT | PULLOUT_TEXT
  | EQUATION | INLINE_EQUATION | TABLE | VERTICAL_TEXT | CAPTION_TEXT
  | FLOWING_IMAGE | HEADING_IMAGE | PULLOUT_IMAGE
  | HORZ_LINE | VERT_LINE | NOISE | COUNT | IGNORE
  deriving DecidableEq, Repr

/-- `BoxType.name` (the Python enum member name). -/
def BoxType.name : BoxType → String
  | .UNKNOWN => "UNKNOWN"
  | .FLOWING_TEXT => "FLOWING_TEXT"
  | .HEADING_TEXT => "HEADING_TEXT"
  | .PULLOUT_TEXT => "PULLOUT_TEXT"
  | .EQUATION => "EQUATION"
  | .INLINE_EQUATION => "INLINE_EQUATION"
  | .TABLE => "TABLE"
  | .VERTICAL_TEXT => "VERTICAL_TEXT"
  | .CAPTION_TEXT => "CAPTION_TEXT"
  | .FLOWING_IMAGE => "FLOWING_IMAGE"
  | .HEADING_IMAGE => "HEADING_IMAGE"
  | .PULLOUT_IMAGE => "PULLOUT_IMAGE"
  | .HORZ_LINE => "HORZ_LINE"
  | .VERT_LINE => "VERT_LINE"
  | .NOISE => "NOISE"
  | .COUNT => "COUNT"
  | .IGNORE => "IGNORE"

/-- Modelled from the spec: `BoxType.value` (the numeric enum value, used by
the analyze filter's allow-list); any injective assignment serves. -/
def BoxType.value : BoxType → Nat
  | .UNKNOWN => 0
  | .FLOWING_TEXT => 1
  | .HEADING_TEXT => 2
  | .PULLOUT_TEXT => 3
  | .EQUATION => 4
  | .INLINE_EQUATION => 5
  | .TABLE => 6
  | .VERTICAL_TEXT => 7
  | .CAPTION_TEXT => 8
  | .FLOWING_IMAGE => 9
  | .HEADING_IMAGE => 10
  | .PULLOUT_IMAGE => 11
  | .HORZ_LINE => 12
  | .VERT_LINE => 13
  | .NOISE => 14
  | .COUNT => 15
  | .IGNORE => 16

/-- `BoxType[name]`: member lookup by name, `none` on a `KeyError`. -/
def boxTypeOfName (s : String) : Option BoxType :=
  [BoxType.UNKNOWN, .FLOWING_TEXT, .HEADING_TEXT, .PULLOUT_TEXT, .EQUATION,
   .INLINE_EQUATION, .TABLE, .VERTICAL_TEXT, .CAPTION_TEXT, .FLOWING_IMAGE,
   .HEADING_IMAGE, .PULLOUT_IMAGE, .HORZ_LINE, .VERT_LINE, .NOISE, .COUNT,
   .IGNORE].find? (fun t => t.name = s)

/-- The Python class of a box object (`OCRBox` and its subclasses in
`page/ocr_box.py`). -/
inductive BoxClass where
  | base | text | image | line | equation | table | noise | count
  deriving DecidableEq, Repr

/-- `BOX_TYPE_MAP` from `page/ocr_box.py`: box-type name → constructor
class; `none` when the name is not a key of the table (a `KeyError`). -/
def BOX_TYPE_MAP : BoxType → Option BoxClass
  | .UNKNOWN => some .base
  | .FLOWING_TEXT => some .text
  | .HEADING_TEXT => some .text
  | .PULLOUT_TEXT => some .text
  | .EQUATION => some .equation
  | .INLINE_EQUATION => some .text
  | .TABLE => some .table
  | .VERTICAL_TEXT => some .text
  | .CAPTION_TEXT => some .text
  | .FLOWING_IMAGE => some .image
  | .HEADING_IMAGE => some .image
  | .PULLOUT_IMAGE => some .image
  | .HORZ_LINE => some .line
  | .VERT_LINE => some .line
  | .NOISE => some .noise
  | .COUNT => some .count
  | .IGNORE => none

/-- The default `type` argument of each class's `__init__`
(`BoxType.UNKNOWN` for `OCRBox`, `TextBox`, `ImageBox`, `LineBox`;
the specific kind for `EquationBox`, `TableBox`, `NoiseBox`, `CountBox`). -/
def BoxClass.defaultType : BoxClass → BoxType
  | .equation => .EQUATION
  | .table => .TABLE
  | .noise => .NOISE
  | .count => .COUNT
  | _ => .UNKNOWN

/-- Modelled from the spec: `OCRResultBlock` (`ocr_engine/ocr_result.py` is
not among the sources).  The spec treats the Recognition Result as a
structural record holding a list of paragraphs and round-tripping through
`to_dict`/`from_dict`; the paragraph payload is kept as opaque record
values. -/
structure OCRResultBlock where
  paragraphs : List DVal

/-- Modelled from the spec: `OCRResultBlock.to_dict`. -/
def OCRResultBlock.to_dict (b : OCRResultBlock) : Dict :=
  [("paragraphs", DVal.list b.paragraphs)]

/-- Modelled from the spec: `OCRResultBlock.from_dict`. -/
def OCRResultBlock.from_dict (d : Dict) : OCRResultBlock :=
  ⟨match dictGet d "paragraphs" with
   | some (.list l) => l
   | _ => []⟩

/-- The dynamic content of the `ocr_results` attribute: normally an
`OCRResultBlock` object, but the variant `from_dict`s in `page/ocr_box.py`
store the raw serialized dict there instead, so the embedding keeps both
possibilities apart. -/
inductive OcrResField where
  | block (b : OCRResultBlock) : OcrResField
  | rawDict (d : DVal) : OcrResField

/-- The state of an `OCRBox` object (and of its subclasses; `cls` records
the Python class).  `callbacks` holds registered observers as opaque
identifiers in registration order.  `user_text` and `flows_into_next` are
meaningful only for `cls = text`; `user_data` is modelled from the spec
(an arbitrary key→value map used by `page/page.py`). -/
structure OCRBox where
  cls : BoxClass := .base
  id : String := ""
  order : Int := 0
  x : Int
  y : Int
  width : Int
  height : Int
  type : BoxType := .UNKNOWN
  class_ : String := ""
  tag : String := ""
  confidence : ℚ := 0
  ocr_results : Option OcrResField := none
  user_data : Dict := []
  callbacks : List Nat := []
  update_source : Option String := none
  user_text : String := ""
  flows_into_next : Bool := false

/-- `OCRBox.__init__` (and the variant `__init__`s, which differ only in
the class and the default `type`): a fresh box; `id` is the fresh UUID
(external randomness, passed in). -/
def OCRBox.new (cls : BoxClass) (fresh_id : String) (x y width height : Int)
    (type : BoxType) : OCRBox :=
  { cls := cls, id := fresh_id, x := x, y := y, width := width,
    height := height, type := type }

/-- `OCRBox.position`. -/
def OCRBox.position (b : OCRBox) : Dict :=
  [("x", .int b.x), ("y", .int b.y), ("width", .int b.width),
   ("height", .int b.height)]

/-- `OCRBox.to_dict` (for `cls = text` the `TextBox` override, which adds
`user_text`).  Fails (`AttributeError`) when `ocr_results` holds a raw
dict, which has no `to_dict` method. -/
def OCRBox.to_dict (b : OCRBox) : Except String Dict := do
  let ser ← match b.ocr_results with
    | none => pure DVal.null
    | some (.block blk) => pure (DVal.dict blk.to_dict)
    | some (.rawDict _) => throw "AttributeError: no method to_dict"
  let base : Dict :=
    [("id", .str b.id), ("position", .dict b.position),
     ("type", .str b.type.name), ("class", .str b.class_),
     ("tag", .str b.tag), ("confidence", .float b.confidence),
     ("order", .int b.order), ("ocr_results", ser)]
  if b.cls = .text then
    return base ++ [("user_text", .str b.user_text)]
  else
    return base

/-- `OCRBox.convert_to`: a fresh box of the class `BOX_TYPE_MAP` assigns to
`box_type`, taking over `id`, `order`, `class`, `tag`, `confidence` and the
geometry; `ocr_results` is dropped for the image/line kinds and copied
otherwise.  `none` on a `KeyError` in `BOX_TYPE_MAP`. -/
def OCRBox.convert_to (b : OCRBox) (box_type : BoxType) : Option OCRBox :=
  match BOX_TYPE_MAP box_type with
  | none => none
  | some c =>
    let new_box := OCRBox.new c b.id b.x b.y b.width b.height box_type
    let new_box :=
      { new_box with
        order := b.order
        class_ := b.class_
        tag := b.tag
        confidence := b.confidence }
    if box_type ∈ [BoxType.FLOWING_IMAGE, .HEADING_IMAGE, .PULLOUT_IMAGE,
                   .HORZ_LINE, .VERT_LINE] then
      some { new_box with ocr_results := none }
    else
      some { new_box with ocr_results := b.ocr_results }

/-- `OCRBox.add_callback`. -/
def OCRBox.add_callback (b : OCRBox) (cb : Nat) : OCRBox :=
  { b with callbacks := b.callbacks ++ [cb] }

/-- `OCRBox.notify_callbacks`: the list of callbacks invoked, in
invocation order (each is called synchronously with the box); empty when
`source` equals the in-progress `_update_source`. -/
def OCRBox.notify_callbacks (b : OCRBox) (source : Option String) :
    List Nat :=
  if source ≠ b.update_source then b.callbacks else []

/-- `OCRBox.update_position`: returns the mutated box and the list of
callbacks that were notified. -/
def OCRBox.update_position (b : OCRBox) (x y : Int)
    (source : Option String) : OCRBox × List Nat :=
  let b1 := { b with x := b.x + x, y := b.y + y }
  let b2 := { b1 with update_source := source }
  let fired := b2.notify_callbacks source
  ({ b2 with update_source := none }, fired)

/-- `OCRBox.update_size`: returns the mutated box and the list of
callbacks that were notified. -/
def OCRBox.update_size (b : OCRBox) (width height : Int)
    (source : Option String) : OCRBox × List Nat :=
  let b1 := { b with width := width, height := height }
  let b2 := { b1 with update_source := source }
  let fired := b2.notify_callbacks source
  ({ b2 with update_source := none }, fired)

/-- `OCRBox.load_ocr_results`: `None` for a falsy record, otherwise the
reconstructed `OCRResultBlock`.  The error case covers a non-dict truthy
value (which the reconstruction cannot consume). -/
def OCRBox.load_ocr_results (v : Option DVal) :
    Except String (Option OcrResField) :=
  match v with
  | none => pure none
  | some w =>
    if w.truthy then
      match w with
      | .dict d => pure (some (.block (OCRResultBlock.from_dict d)))
      | _ => throw "TypeError: ocr_results record is not a dict"
    else
      pure none

/-- Reading an `int` field out of a record value. -/
def DVal.asInt : DVal → Except String Int
  | .int n => pure n
  | _ => throw "TypeError: expected int"

/-- Reading a `str` field out of a record value. -/
def DVal.asStr : DVal → Except String String
  | .str s => pure s
  | _ => throw "TypeError: expected str"

/-- Reading a `float` field out of a record value (Python accepts an `int`
where a float is expected). -/
def DVal.asFloat : DVal → Except String ℚ
  | .float q => pure q
  | .int n => pure (n : ℚ)
  | _ => throw "TypeError: expected float"

/-- `data["k"]`: lookup that raises `KeyError` when absent. -/
def dictGetE (d : Dict) (k : String) : Except String DVal :=
  match dictGet d k with
  | some v => pure v
  | none => throw ("KeyError: " ++ k)

/-- The field block shared by the `from_dict` classmethods: geometry from
`data["position"]`, then `id`, `order`, `type`, `class`, `tag`,
`confidence` with their legacy defaults. -/
def fromDictCommon (cls : BoxClass) (data : Dict) : Except String OCRBox := do
  let pos ← dictGetE data "position"
  let posd ← match pos with
    | .dict d => pure d
    | _ => throw "TypeError: position is not a dict"
  let x ← (← dictGetE posd "x").asInt
  let y ← (← dictGetE posd "y").asInt
  let width ← (← dictGetE posd "width").asInt
  let height ← (← dictGetE posd "height").asInt
  let box := OCRBox.new cls "" x y width height cls.defaultType
  let i ← (← dictGetE data "id").asStr
  let order ← (dictGetD data "order" (.int 0)).asInt
  let tyName ← (← dictGetE data "type").asStr
  let ty ← match boxTypeOfName tyName with
    | some t => pure t
    | none => throw ("KeyError: " ++ tyName)
  let cl ← (dictGetD data "class" (.str "")).asStr
  let tg ← (dictGetD data "tag" (.str "")).asStr
  let conf ← (dictGetD data "confidence" (.float 0)).asFloat
  return { box with
           id := i
           order := order
           type := ty
           class_ := cl
           tag := tg
           confidence := conf }

/-- `OCRBox.from_dict` (the base classmethod, invoked with class `cls`):
common fields plus `ocr_results` via `load_ocr_results`. -/
def OCRBox.from_dict (cls : BoxClass) (data : Dict) :
    Except String OCRBox := do
  let box ← fromDictCommon cls data
  let res ← OCRBox.load_ocr_results (dictGet data "ocr_results")
  return { box with ocr_results := res }

/-- `TextBox.from_dict`: like the base classmethod (written out in the
source rather than delegated), plus `user_text`. -/
def TextBox.from_dict (data : Dict) : Except String OCRBox := do
  let box ← fromDictCommon .text data
  let res ← OCRBox.load_ocr_results (dictGet data "ocr_results")
  let ut ← (dictGetD data "user_text" (.str "")).asStr
  return { box with ocr_results := res, user_text := ut }

/-- The `ocr_results` attribute after `box.ocr_results =
data.get("ocr_results")` in the variant `from_dict`s: the raw record value
itself (`None` giving `none`). -/
def rawOcrResultsOf (v : Option DVal) : Option OcrResField :=
  match v with
  | none => none
  | some .null => none
  | some w => some (.rawDict w)

/-- The shared body of `ImageBox.from_dict`, `LineBox.from_dict`,
`EquationBox.from_dict`, `TableBox.from_dict`, `NoiseBox.from_dict` and
`CountBox.from_dict` (identical in the source up to the class): call the
base classmethod, rebuild a fresh box from its geometry, then set
`ocr_results` to the *raw* record value and the remaining fields from the
record. -/
def variantFromDict (cls : BoxClass) (data : Dict) :
    Except String OCRBox := do
  let ocr_box ← OCRBox.from_dict cls data
  let box := OCRBox.new cls "" ocr_box.x ocr_box.y ocr_box.width
    ocr_box.height cls.defaultType
  let raw := rawOcrResultsOf (dictGet data "ocr_results")
  let box := { box with ocr_results := raw }
  let i ← (← dictGetE data "id").asStr
  let order ← (dictGetD data "order" (.int 0)).asInt
  let tyName ← (← dictGetE data "type").asStr
  let ty ← match boxTypeOfName tyName with
    | some t => pure t
    | none => throw ("KeyError: " ++ tyName)
  let cl ← (dictGetD data "class" (.str "")).asStr
  let tg ← (dictGetD data "tag" (.str "")).asStr
  let conf ← (dictGetD data "confidence" (.float 0)).asFloat
  return { box with
           id := i
           order := order
           type := ty
           class_ := cl
           tag := tg
           confidence := conf }

/-- `OCRBox.similarity`: `1 - (|Δx|+|Δy|+|Δw|+|Δh|) / (w+h)` of the
receiver; `none` models the `ZeroDivisionError` when the denominator is
zero. -/
def OCRBox.similarity (b other : OCRBox) : Option ℚ :=
  if b.width + b.height = 0 then none
  else some (1 - ((b.x - other.x).natAbs + (b.y - other.y).natAbs
    + (b.width - other.width).natAbs
    + (b.height - other.height).natAbs : ℚ)
    / ((b.width + b.height : Int) : ℚ))

/-- A rectangular region `(x, y, width, height)`. -/
abbrev Region := Int × Int × Int × Int

/-- The state of a `PageLayout` (`page/page_layout.py`). -/
structure PageLayout where
  ocr_boxes : List OCRBox := []
  region : Region := (0, 0, 0, 0)
  header_y : Int := 0
  footer_y : Int := 0

/-- `PageLayout.update_order`: renumber `order := position_in_sequence`. -/
def PageLayout.update_order (l : PageLayout) : PageLayout :=
  { l with ocr_boxes :=
      l.ocr_boxes.enum.map (fun p => { p.2 with order := (p.1 : Int) }) }

/-- `PageLayout.sort_boxes`: stable sort by `order` (Python `list.sort`),
then renumber. -/
def PageLayout.sort_boxes (l : PageLayout) : PageLayout :=
  PageLayout.update_order
    { l with ocr_boxes :=
        l.ocr_boxes.mergeSort (fun a b => a.order ≤ b.order) }

/-- Python `list.pop(index)` for a non-negative index: the removed element
and the remaining list, or an `IndexError`. -/
def pyPop (l : List OCRBox) (index : Nat) :
    Except String (OCRBox × List OCRBox) :=
  match l.get? index with
  | none => throw "IndexError: pop index out of range"
  | some b => pure (b, l.take index ++ l.drop (index + 1))

/-- Python `list.insert(index, x)` for a non-negative index (clamps to the
end when the index exceeds the length). -/
def pyInsert (l : List OCRBox) (index : Nat) (b : OCRBox) : List OCRBox :=
  l.take index ++ b :: l.drop index

/-- `PageLayout.move_ocr_box`: pop at `index`, reinsert at `new_index`,
renumber. -/
def PageLayout.move_ocr_box (l : PageLayout) (index new_index : Nat) :
    Except String PageLayout := do
  let (box, rest) ← pyPop l.ocr_boxes index
  return PageLayout.update_order
    { l with ocr_boxes := pyInsert rest new_index box }

/-- `PageLayout.remove_ocr_box`: pop at `index`, renumber. -/
def PageLayout.remove_ocr_box (l : PageLayout) (index : Nat) :
    Except String PageLayout := do
  let (_, rest) ← pyPop l.ocr_boxes index
  return PageLayout.update_order { l with ocr_boxes := rest }

/-- The index of the first element satisfying `p` (the
`for index, box in enumerate(...)` scan). -/
def firstIdxBy {α : Type} (p : α → Bool) : List α → Option Nat
  | [] => none
  | b :: rest => if p b then some 0 else (firstIdxBy p rest).map (· + 1)

/-- `PageLayout.remove_box_by_id`: remove the first box (in sequence
order) whose `id` matches, renumbering; no effect when no box matches. -/
def PageLayout.remove_box_by_id (l : PageLayout) (box_id : String) :
    PageLayout :=
  match firstIdxBy (fun b => b.id = box_id) l.ocr_boxes with
  | none => l
  | some index =>
    match l.remove_ocr_box index with
    | .ok l' => l'
    | .error _ => l

/-- `PageLayout.add_ocr_box`: append (no index) or insert, renumber. -/
def PageLayout.add_ocr_box (l : PageLayout) (box : OCRBox)
    (index : Option Nat) : PageLayout :=
  PageLayout.update_order
    { l with ocr_boxes :=
        match index with
        | none => l.ocr_boxes ++ [box]
        | some i => pyInsert l.ocr_boxes i box }

/-- `PageLayout.replace_ocr_box`: `self.ocr_boxes[index] = box` (an
`IndexError` when the index is out of range; no renumbering). -/
def PageLayout.replace_ocr_box (l : PageLayout) (index : Nat)
    (box : OCRBox) : Except String PageLayout :=
  if index < l.ocr_boxes.length then
    pure { l with ocr_boxes := l.ocr_boxes.set index box }
  else
    throw "IndexError: list assignment index out of range"

/-- `PageLayout.get_ocr_box_by_id`. -/
def PageLayout.get_ocr_box_by_id (l : PageLayout) (box_id : String) :
    Option OCRBox :=
  l.ocr_boxes.find? (fun b => b.id = box_id)

/-- `PageLayout.get_page_region` (called `get_final_page_region` by
`page/page.py`): the region trimmed by the header and footer offsets. -/
def PageLayout.get_page_region (l : PageLayout) : Region :=
  (l.region.1, l.header_y, l.region.2.2.1,
   l.region.2.2.2 - l.header_y - l.footer_y)

/-- Modelled from the spec: `PageLayout.set_region` (called by
`page/page.py` but absent from the `PageLayout` source): store the
analyzable region derived from the image size. -/
def PageLayout.set_region (l : PageLayout) (r : Region) : PageLayout :=
  { l with region := r }

/-- The state of a `Page` (`page/page.py`); the OCR processor is passed to
the operations as an explicit capability instead of being stored. -/
structure Page where
  image_path : Option String := none
  order : Int := 0
  layout : PageLayout := {}

/-- `Page.is_valid_box_index`. -/
def Page.is_valid_box_index (pg : Page) (box_index : Nat) : Bool :=
  box_index < pg.layout.ocr_boxes.length

/-- `Page.convert_ocr_box`: with an invalid index, log and return
unchanged; otherwise replace the box in its slot with the conversion
result (an unknown `BOX_TYPE_MAP` key raises). -/
def Page.convert_ocr_box (pg : Page) (box_index : Nat)
    (box_type : BoxType) : Except String Page :=
  if pg.is_valid_box_index box_index then
    match pg.layout.ocr_boxes.get? box_index with
    | none => throw "IndexError"
    | some ocr_box =>
      match ocr_box.convert_to box_type with
      | none => throw "KeyError: BOX_TYPE_MAP"
      | some new_box =>
        pure { pg with layout := { pg.layout with
          ocr_boxes := pg.layout.ocr_boxes.set box_index new_box } }
  else
    pure pg

/-- Python truthiness of the `ocr_results` attribute (`if
ocr_box1.ocr_results and ...`): an `OCRResultBlock` object is always
truthy; a raw dict stored there is truthy iff non-empty. -/
def ocrResTruthy : Option OcrResField → Bool
  | none => false
  | some (.block _) => true
  | some (.rawDict w) => w.truthy

/-- `box_a == box_b` as evaluated by Python (`box_a.__eq__`): the
receiver's class runs its `isinstance` check, then both `to_dict`s are
compared (an `AttributeError` from `to_dict` propagates). -/
def pyEqBox (a b : OCRBox) : Except String Bool :=
  let clsOk : Bool := match a.cls with
    | .base => true
    | c => b.cls == c
  if clsOk then do
    let da ← a.to_dict
    let db ← b.to_dict
    pure (DVal.beq (.dict da) (.dict db))
  else
    pure false

/-- Scan for `list.remove(value)`: removes the first element that is the
value itself (object identity, at `identity_index - j` positions ahead) or
that compares `==` to it. -/
def pyListRemoveAux (l : List OCRBox) (j identity_index : Nat)
    (value : OCRBox) : Except String (List OCRBox) :=
  match l with
  | [] => throw "ValueError: list.remove(x): x not in list"
  | b :: rest =>
    if j = identity_index then pure rest
    else do
      let e ← pyEqBox b value
      if e then pure rest
      else do
        let rest' ← pyListRemoveAux rest (j + 1) identity_index value
        pure (b :: rest')

/-- `list.remove(value)` where `value` is known to be the element at
`identity_index`. -/
def pyListRemove (l : List OCRBox) (identity_index : Nat)
    (value : OCRBox) : Except String (List OCRBox) :=
  pyListRemoveAux l 0 identity_index value

/-- `Page.merge_ocr_box_with_ocr_box`: with an invalid index, log and
return unchanged.  Otherwise mutate box1 field by field exactly as the
source does (each statement reading the current state of both objects —
`ocr_box2` aliases `ocr_box1` when the indices coincide), then remove
box2 from the layout's list. -/
def Page.merge_ocr_box_with_ocr_box (pg : Page) (index1 index2 : Nat) :
    Except String Page :=
  if !pg.is_valid_box_index index1 || !pg.is_valid_box_index index2 then
    pure pg
  else
    match pg.layout.ocr_boxes.get? index1,
          pg.layout.ocr_boxes.get? index2 with
    | some b1, some b2 =>
      -- `ocr_box2` aliases `ocr_box1` when the indices coincide; each
      -- source statement reads the objects' current state, so the width
      -- and height are computed from the already-updated `x` and `y`.
      let b2r := if index1 = index2 then b1 else b2
      let nx := min b1.x b2r.x
      let ny := min b1.y b2r.y
      let nw := max (nx + b1.width) (b2r.x + b2r.width) - nx
      let nh := max (ny + b1.height) (b2r.y + b2r.height) - ny
      let geo : OCRBox :=
        { b1 with
          x := nx
          y := ny
          width := nw
          height := nh
          confidence := max b1.confidence b2r.confidence
          user_data := dictUpdate b1.user_data b2r.user_data }
      let withResults : Except String OCRBox :=
        if ocrResTruthy b1.ocr_results && ocrResTruthy b2r.ocr_results
        then
          match b1.ocr_results, b2r.ocr_results with
          | some (.block p1), some (.block p2) =>
            let joined :=
              some (OcrResField.block ⟨p1.paragraphs ++ p2.paragraphs⟩)
            pure { geo with ocr_results := joined }
          | _, _ => throw "AttributeError: no attribute paragraphs"
        else
          pure geo
      do
        let c7 ← withResults
        let c8 :=
          if b1.cls = .text ∧ b2r.cls = .text then
            { c7 with
              user_text := b1.user_text ++ " " ++ b2r.user_text
              flows_into_next := b2r.flows_into_next }
          else c7
        let boxes1 := pg.layout.ocr_boxes.set index1 c8
        let value := if index1 = index2 then c8 else b2
        let boxes2 ← pyListRemove boxes1 index2 value
        return { pg with layout := { pg.layout with ocr_boxes := boxes2 } }
    | _, _ => throw "IndexError"

/-- The settings keys `Page.analyze_page` reads (`box_types`,
`x_size_threshold`, `y_size_threshold`), each absent or present. -/
structure AnalyzeSettings where
  box_types : Option (List Nat) := none
  x_size_threshold : Option Int := none
  y_size_threshold : Option Int := none

/-- Modelled from the spec: `PageLayout.sort_ocr_boxes_by_order` (called
by `Page.analyze_page` but absent from the `PageLayout` source): resort by
`order` (the layout's stable sort-and-renumber pass). -/
def PageLayout.sort_ocr_boxes_by_order (l : PageLayout) : PageLayout :=
  l.sort_boxes

/-- The maximum current `order` (`max(..., default=-1)`). -/
def maxOrder (boxes : List OCRBox) : Int :=
  match boxes.map (fun b => b.order) with
  | [] => -1
  | h :: t => t.foldl max h

/-- `Page.analyze_page`.  The OCR processor is the `processor` capability
(`analyze_layout`), the image size backs the spec-modelled
`set_region` default-region path, and the settings are the keys the method
reads.  Missing image path: logged, returns `[]` with the page unchanged;
missing processor: raises.  The freshly analyzed boxes are filtered,
renumbered from the current maximum order, stored (appending when
`keep_existing_boxes`), and the layout is resorted. -/
def Page.analyze_page (pg : Page)
    (processor : Option (String → Region → List OCRBox))
    (project_settings : Option AnalyzeSettings)
    (image_size : Int × Int)
    (region : Option Region)
    (keep_existing_boxes filter_by_box_types filter_by_size : Bool) :
    Except String (Page × List OCRBox) :=
  match pg.image_path with
  | none => pure (pg, [])
  | some img =>
    let (pg, reg) :=
      match region with
      | some r => (pg, r)
      | none =>
        let layout := pg.layout.set_region (0, 0, image_size.1, image_size.2)
        ({ pg with layout := layout }, layout.get_page_region)
    match processor with
    | none => throw "No OCR processor set for page"
    | some analyze_layout =>
      let ocr_boxes := analyze_layout img reg
      let ocr_boxes :=
        match project_settings with
        | none => ocr_boxes
        | some s =>
          let bs :=
            if filter_by_box_types then
              match s.box_types with
              | some allowed =>
                ocr_boxes.filter
                  (fun (b : OCRBox) => allowed.contains b.type.value)
              | none => ocr_boxes
            else ocr_boxes
          if filter_by_size then
            let xt := s.x_size_threshold.getD 0
            let yt := s.y_size_threshold.getD 0
            if xt > 0 || yt > 0 then
              bs.filter (fun (b : OCRBox) => xt ≤ b.width && yt ≤ b.height)
            else bs
          else bs
      let m := maxOrder pg.layout.ocr_boxes
      let ocr_boxes := ocr_boxes.enum.map
        (fun (p : Nat × OCRBox) => { p.2 with order := m + 1 + (p.1 : Int) })
      let stored :=
        if keep_existing_boxes then pg.layout.ocr_boxes ++ ocr_boxes
        else ocr_boxes
      let layout := PageLayout.sort_ocr_boxes_by_order
        { pg.layout with ocr_boxes := stored }
      pure ({ pg with layout := layout }, ocr_boxes)

/-- `TextBox.has_text` (via `get_text`, whose traversal of the Recognition
Result is the `blockGetText` capability modelled from the spec's
plain-text extraction; `ocr_engine/ocr_result.py` is not among the
sources). -/
def OCRBox.has_text (blockGetText : OCRResultBlock → String) (b : OCRBox) :
    Except String Bool :=
  match b.ocr_results with
  | none => pure false
  | some (.block blk) => pure (0 < (blockGetText blk).length)
  | some (.rawDict w) =>
    if w.truthy then throw "AttributeError: no method get_text"
    else pure false

/-- The convert-empty-TextBoxes pass of `Page.recognize_ocr_boxes`: every
`TextBox` with no reconstructable text is converted to a
`FLOWING_IMAGE` box, left to right over the (mutating) list. -/
def convertEmptyTextboxes (blockGetText : OCRResultBlock → String)
    (pg : Page) : Except String Page :=
  (List.range pg.layout.ocr_boxes.length).foldlM
    (fun (pg : Page) (i : Nat) => do
      match pg.layout.ocr_boxes.get? i with
      | none => pure pg
      | some b =>
        if b.cls = .text then do
          let ht ← b.has_text blockGetText
          if ht then pure pg
          else pg.convert_ocr_box i .FLOWING_IMAGE
        else pure pg)
    pg

/-- `Page.recognize_ocr_boxes`.  The backend call is the `processor`
capability (the spec's `recognize`: mutates each processed box's
Recognition Result and confidence in place, modelled pointwise); the
image-box erasure acts on a scratch copy of the image and leaves the page
state untouched.  Missing image path or invalid index: logged, page
unchanged; missing processor: raises.  Afterwards (whole-page mode) empty
`TextBox`es are converted to image boxes when requested, every processed
box fires a "Backend" notification and `TextBox`es get `user_text`
cleared. -/
def Page.recognize_ocr_boxes (pg : Page)
    (processor : Option (OCRBox → OCRBox))
    (blockGetText : OCRResultBlock → String)
    (box_index : Option Nat)
    (convert_empty_textboxes : Bool) : Except String Page :=
  match pg.image_path with
  | none => pure pg
  | some _ =>
    match box_index with
    | some i =>
      if !pg.is_valid_box_index i then pure pg
      else
        match processor with
        | none => throw "No OCR processor set for page"
        | some recognize =>
          match pg.layout.ocr_boxes.get? i with
          | none => throw "IndexError"
          | some b =>
            let b := recognize b
            let b := if b.cls = .text then { b with user_text := "" } else b
            pure { pg with layout := { pg.layout with
              ocr_boxes := pg.layout.ocr_boxes.set i b } }
    | none =>
      match processor with
      | none => throw "No OCR processor set for page"
      | some recognize => do
        let boxes := pg.layout.ocr_boxes.map recognize
        let pg1 : Page :=
          { pg with layout := { pg.layout with ocr_boxes := boxes } }
        let pg2 ←
          if convert_empty_textboxes then
            convertEmptyTextboxes blockGetText pg1
          else pure pg1
        let boxes2 := pg2.layout.ocr_boxes.map
          (fun (b : OCRBox) =>
            if b.cls = .text then { b with user_text := "" } else b)
        return { pg2 with layout := { pg2.layout with ocr_boxes := boxes2 } }

/-- `OCRResultWriter._check_hyphenated_word`
(`ocr_engine/ocr_result_writer.py`), over the markup-stripped plain texts
of the two fragments (the HTML stripping is the external BeautifulSoup
call).  `some true` = MERGE, `some false` = KEEP-SPLIT; `none` models the
`IndexError` on `second[0]` when the second fragment's plain text is
empty.  The spelling check present in the source is disabled (commented
out), so no dictionary capability is consulted. -/
def check_hyphenated_word (blacklist : Option (List String))
    (_first_part_stripped second_part_stripped : String) : Option Bool :=
  let in_blacklist : Bool :=
    match blacklist with
    | some l => l.contains second_part_stripped.toLower
    | none => false
  if in_blacklist then some false
  else
    match second_part_stripped.data with
    | [] => none
    | c :: _ => if c.isUpper then some false else some true

/-- A bare geometry record, for comparing bounding boxes. -/
structure Rect where
  x : Int
  y : Int
  width : Int
  height : Int
  deriving DecidableEq, Repr

/-- The geometry of a box. -/
def OCRBox.rect (b : OCRBox) : Rect :=
  ⟨b.x, b.y, b.width, b.height⟩

/-- The union bounding box of two rectangles, following the spec's words
for `merge` ("replace box1's geometry with the union bounding box of
both"): for comparison with what the code computes. -/
def unionRect (a b : Rect) : Rect where
  x := min a.x b.x
  y := min a.y b.y
  width := max (a.x + a.width) (b.x + b.width) - min a.x b.x
  height := max (a.y + a.height) (b.y + b.height) - min a.y b.y

/-- The sequence of `order` values of a layout's boxes. -/
def PageLayout.orders (l : PageLayout) : List Int :=
  l.ocr_boxes.map (fun b => b.order)

/-- The order values `0, 1, …, n-1`. -/
def rangeOrders (n : Nat) : List Int :=
  (List.range n).map Int.ofNat

/-- The value of a successful computation, with a fallback. -/
def exceptGetD {α : Type} (e : Except String α) (d : α) : α :=
  match e with
  | .ok a => a
  | .error _ => d

/-- Concrete box with two registered observers (the change-notification
scenario). -/
def c1Box : OCRBox :=
  { x := 0, y := 0, width := 10, height := 10, callbacks := [1, 2] }

/-- Concrete one-box layout (the renumbering scenario). -/
def c2Box : OCRBox := { x := 0, y := 0, width := 1, height := 1, id := "a" }

/-- Concrete one-box layout (the renumbering scenario). -/
def c2Layout : PageLayout := { ocr_boxes := [c2Box] }

/-- A replacement box carrying a non-contiguous `order`. -/
def c2ReplBox : OCRBox := { c2Box with order := 7, id := "r" }

/-- A concrete Recognition Result. -/
def c3Block : OCRResultBlock := ⟨[.str "para"]⟩

/-- A concrete `TableBox` with an attached Recognition Result (the
round-trip scenario). -/
def c3Box : OCRBox :=
  { cls := .table, id := "t1", order := 2, x := 1, y := 2, width := 3,
    height := 4, type := .TABLE, confidence := 1/2,
    ocr_results := some (.block c3Block) }

/-- `TableBox.from_dict(table_box.to_dict())`. -/
def c3Roundtripped : Except String OCRBox :=
  c3Box.to_dict >>= variantFromDict .table

/-- A concrete `TextBox` with an attached Recognition Result (the
conversion scenarios). -/
def c5Box : OCRBox :=
  { cls := .text, x := 0, y := 0, width := 5, height := 6,
    type := .FLOWING_TEXT, ocr_results := some (.block ⟨[.str "p"]⟩),
    user_text := "u" }

/-- `c5Box` converted to an image kind. -/
def c5Img : OCRBox := (c5Box.convert_to .FLOWING_IMAGE).getD c5Box

/-- `c5Box` converted to another text-bearing kind. -/
def c5Cap : OCRBox := (c5Box.convert_to .CAPTION_TEXT).getD c5Box

/-- First box of the merge scenario: right of `c6B`, lower confidence. -/
def c6A : OCRBox :=
  { x := 10, y := 0, width := 5, height := 1, id := "A", confidence := 1/5 }

/-- Second box of the merge scenario: left of `c6A`, higher confidence. -/
def c6B : OCRBox :=
  { x := 0, y := 0, width := 5, height := 1, id := "B", confidence := 7/10 }

/-- A page holding the two merge-scenario boxes. -/
def c6Page : Page :=
  { image_path := some "img", layout := { ocr_boxes := [c6A, c6B] } }

/-- A concrete `TextBox` with one registered observer (the conversion
frame scenario). -/
def c7Box : OCRBox :=
  { cls := .text, id := "c", order := 3, x := 1, y := 1, width := 2,
    height := 2, type := .FLOWING_TEXT, callbacks := [5] }

/-- A page holding `c7Box`. -/
def c7Page : Page :=
  { image_path := some "img", layout := { ocr_boxes := [c7Box] } }

/-- `c7Box` converted to `CAPTION_TEXT`. -/
def c7NB : OCRBox := (c7Box.convert_to .CAPTION_TEXT).getD c7Box

/-- `c7Page` after converting its box to `CAPTION_TEXT`. -/
def c7PageAfter : Page :=
  exceptGetD (c7Page.convert_ocr_box 0 .CAPTION_TEXT) c7Page

/-- A page with an image path and one box but no OCR processor (the
precondition-error scenario). -/
def c8Box : OCRBox := { x := 0, y := 0, width := 1, height := 1 }

/-- A page with an image path and one box but no OCR processor (the
precondition-error scenario). -/
def c8Page : Page :=
  { image_path := some "img", layout := { ocr_boxes := [c8Box] } }

/-- Receiver of the similarity scenario (`width + height = 7`). -/
def c9A : OCRBox := { x := 0, y := 0, width := 3, height := 4 }

/-- Argument of the similarity scenario. -/
def c9B : OCRBox := { x := 1, y := 2, width := 3, height := 9 }

/-- Degenerate receiver with `width + height = 0`. -/
def c9Z : OCRBox := { x := 0, y := 0, width := 0, height := 0 }

/-- First box of the remove-by-id scenario. -/
def c10A : OCRBox :=
  { x := 0, y := 0, width := 1, height := 1, id := "a", order := 5 }

/-- Second box of the remove-by-id scenario. -/
def c10B : OCRBox :=
  { x := 1, y := 0, width := 1, height := 1, id := "b", order := 9 }

/-- A two-box layout for the remove-by-id scenario. -/
def c10Layout : PageLayout := { ocr_boxes := [c10A, c10B] }

theorem pyInsert_length (l : List OCRBox) (i : Nat) (b : OCRBox) :
    (pyInsert l i b).length = l.length + 1 := by
  simp [pyInsert]
  omega

theorem pyPop_eq {l : List OCRBox} {i : Nat} (h : i < l.length) :
    pyPop l i = .ok (l.get ⟨i, h⟩, l.take i ++ l.drop (i + 1)) := by
  simp [pyPop, List.getElem?_eq_getElem h]
  rfl

theorem orders_update_order (l : PageLayout) :
    l.update_order.orders = rangeOrders l.ocr_boxes.length := by
  simp only [PageLayout.update_order, PageLayout.orders, rangeOrders,
    List.map_map]
  have : ((fun b => b.order) ∘
      fun (p : Nat × OCRBox) => { p.2 with order := (p.1 : Int) }) =
      (Int.ofNat ∘ Prod.fst) := rfl
  rw [this, ← List.map_map, List.enum_map_fst]

theorem firstIdxBy_lt_length {α : Type} (p : α → Bool) :
    ∀ {l : List α} {i : Nat}, firstIdxBy p l = some i → i < l.length := by
  intro l
  induction l with
  | nil => intro i h; simp [firstIdxBy] at h
  | cons b rest ih =>
    intro i h
    simp only [firstIdxBy] at h
    by_cases hb : p b
    · rw [if_pos hb] at h
      cases h
      simp
    · rw [if_neg hb] at h
      obtain ⟨i', hi', rfl⟩ := Option.map_eq_some'.mp h
      have := ih hi'
      simp
      omega

theorem exists_firstIdxBy {α : Type} (p : α → Bool) :
    ∀ {l : List α}, (∃ b ∈ l, p b) → ∃ i, firstIdxBy p l = some i := by
  intro l
  induction l with
  | nil => rintro ⟨b, hb, _⟩; simp at hb
  | cons b rest ih =>
    rintro ⟨b', hb', hp⟩
    by_cases hb : p b
    · exact ⟨0, by simp [firstIdxBy, hb]⟩
    · rcases List.mem_cons.1 hb' with rfl | hmem
      · exact absurd hp (by simp [hb])
      · obtain ⟨i, hi⟩ := ih ⟨b', hmem, hp⟩
        exact ⟨i + 1, by simp [firstIdxBy, hb, hi]⟩

theorem firstIdxBy_eq_some_of {α : Type} (p : α → Bool) :
    ∀ {l : List α} {i : Nat} {b : α}, l.get? i = some b → p b = true →
      (∀ j, j < i → ∀ bj, l.get? j = some bj → p bj = false) →
      firstIdxBy p l = some i := by
  intro l
  induction l with
  | nil => intro i b h; simp at h
  | cons x rest ih =>
    intro i b hget hp hfirst
    match i with
    | 0 =>
      simp at hget
      subst hget
      simp [firstIdxBy, hp]
    | i' + 1 =>
      have hx : p x = false := hfirst 0 (by omega) x rfl
      have : firstIdxBy p rest = some i' :=
        ih (by simpa using hget) hp
          (fun j hj bj hbj => hfirst (j + 1) (by omega) bj (by simpa using hbj))
      simp [firstIdxBy, hx, this]

theorem firstIdxBy_eq_none {α : Type} (p : α → Bool) :
    ∀ {l : List α}, (∀ b ∈ l, p b = false) → firstIdxBy p l = none := by
  intro l
  induction l with
  | nil => intro _; rfl
  | cons x rest ih =>
    intro h
    simp [firstIdxBy, h x (by simp), ih (fun b hb => h b (by simp [hb]))]

/-- C1, counterexample: a box with registered observers and no update in
progress is moved by `update_position` with a fresh source; contrary to
the claim, no callback fires (the notification list is empty), because
`update_position` installs its own source as the in-progress source before
the notification check. -/
theorem c1_counterexample :
    (c1Box.update_position 1 2 (some "GUI")).2 = [] ∧
    c1Box.callbacks = [1, 2] ∧
    some "GUI" ≠ c1Box.update_source := by
  refine ⟨rfl, rfl, by decide⟩

/-- C1 (amended): `update_position`/`update_size` mutate the geometry and
reset the in-progress source, but never fire notifications — the guard
compares the call's source with the in-progress source it itself just
installed.  A standalone `notify_callbacks s` fires every registered
callback, synchronously and in registration order, exactly when `s`
differs from the box's current in-progress source. -/
theorem c1_update_suppresses_notify :
    ∀ (b : OCRBox) (dx dy w h : Int) (s : Option String),
    b.update_position dx dy s =
      ({ b with x := b.x + dx, y := b.y + dy, update_source := none }, []) ∧
    b.update_size w h s =
      ({ b with width := w, height := h, update_source := none }, []) ∧
    (s ≠ b.update_source → b.notify_callbacks s = b.callbacks) ∧
    (s = b.update_source → b.notify_callbacks s = []) := by
  intro b dx dy w h s
  refine ⟨?_, ?_, ?_, ?_⟩
  · simp [OCRBox.update_position, OCRBox.notify_callbacks]
  · simp [OCRBox.update_size, OCRBox.notify_callbacks]
  · intro hne; simp [OCRBox.notify_callbacks, hne]
  · intro heq; simp [OCRBox.notify_callbacks, heq]

/-- C1 witness: the amended statement at a concrete box — an update fires
nothing, while a direct "Backend" notification fires both observers in
registration order. -/
theorem c1_witness :
    c1Box.update_position 1 2 (some "GUI") =
      ({ c1Box with x := 1, y := 2, update_source := none }, []) ∧
    c1Box.notify_callbacks (some "Backend") = [1, 2] :=
  ⟨(c1_update_suppresses_notify c1Box 1 2 0 0 (some "GUI")).1,
   (c1_update_suppresses_notify c1Box 0 0 0 0 (some "Backend")).2.2.1
     (by decide)⟩

/-- C5: `convert_to` drops the Recognition Result to `null` exactly for
the image kinds (flowing/heading/pullout image) and line kinds
(horizontal/vertical rule), and passes it through unchanged for every
other target type. -/
theorem c5_convert_results :
    ∀ (b : OCRBox) (t : BoxType) (nb : OCRBox), b.convert_to t = some nb →
    ((t = .FLOWING_IMAGE ∨ t = .HEADING_IMAGE ∨ t = .PULLOUT_IMAGE ∨
      t = .HORZ_LINE ∨ t = .VERT_LINE) → nb.ocr_results = none) ∧
    (¬ (t = .FLOWING_IMAGE ∨ t = .HEADING_IMAGE ∨ t = .PULLOUT_IMAGE ∨
      t = .HORZ_LINE ∨ t = .VERT_LINE) → nb.ocr_results = b.ocr_results) := by
  intro b t nb h
  cases t <;> simp_all [OCRBox.convert_to, BOX_TYPE_MAP, OCRBox.new] <;>
    subst h <;> simp

/-- C5 witness: a `TextBox` with an attached result converted to
`FLOWING_IMAGE` loses it; converted to `CAPTION_TEXT` keeps it
unchanged. -/
theorem c5_witness :
    c5Img.ocr_results = none ∧ c5Cap.ocr_results = c5Box.ocr_results :=
  ⟨(c5_convert_results c5Box .FLOWING_IMAGE c5Img rfl).1 (Or.inl rfl),
   (c5_convert_results c5Box .CAPTION_TEXT c5Cap rfl).2 (by decide)⟩

/-- C9: `similarity` is defined and equals
`1 − (|Δx|+|Δy|+|Δw|+|Δh|)/(width+height)` of the receiver whenever the
receiver's `width + height` is non-zero, and its failure branch
(`ZeroDivisionError`) is reached exactly when `width + height = 0`. -/
theorem c9_similarity :
    ∀ (a b : OCRBox),
    (a.width + a.height ≠ 0 →
      a.similarity b = some (1 -
        (|(a.x : ℚ) - (b.x : ℚ)| + |(a.y : ℚ) - (b.y : ℚ)| +
         |(a.width : ℚ) - (b.width : ℚ)| +
         |(a.height : ℚ) - (b.height : ℚ)|) /
        ((a.width : ℚ) + (a.height : ℚ)))) ∧
    (a.similarity b = none ↔ a.width + a.height = 0) := by
  intro a b
  constructor
  · intro h
    simp only [OCRBox.similarity, h, if_false, Option.some.injEq]
    have habs : ∀ m n : Int, ((m - n).natAbs : ℚ) = |(m : ℚ) - (n : ℚ)| := by
      intro m n
      rw [Int.cast_natAbs]
      push_cast
      ring_nf
    rw [habs, habs, habs, habs]
    push_cast
    ring_nf
  · by_cases h : a.width + a.height = 0 <;> simp [OCRBox.similarity, h]

/-- C9 witness: the formula at a concrete pair of boxes, and the failure
branch at a degenerate receiver. -/
theorem c9_witness :
    c9A.similarity c9B = some (1 -
      (|(c9A.x : ℚ) - (c9B.x : ℚ)| + |(c9A.y : ℚ) - (c9B.y : ℚ)| +
       |(c9A.width : ℚ) - (c9B.width : ℚ)| +
       |(c9A.height : ℚ) - (c9B.height : ℚ)|) /
      ((c9A.width : ℚ) + (c9A.height : ℚ))) ∧
    c9Z.similarity c9B = none :=
  ⟨(c9_similarity c9A c9B).1 (by decide),
   (c9_similarity c9Z c9B).2.mpr (by decide)⟩

/-- C10: `remove_box_by_id` with an id matching no box returns normally
and leaves the layout completely unchanged; when a match exists, exactly
the first box (in sequence order) whose id equals the argument is removed
and the contiguous-order renumbering is applied. -/
theorem c10_remove_by_id :
    ∀ (l : PageLayout) (bid : String),
    ((∀ b ∈ l.ocr_boxes, b.id ≠ bid) → l.remove_box_by_id bid = l) ∧
    (∀ i b, l.ocr_boxes.get? i = some b → b.id = bid →
      (∀ j, j < i → ∀ bj, l.ocr_boxes.get? j = some bj → bj.id ≠ bid) →
      l.remove_box_by_id bid =
        PageLayout.update_order
          { l with ocr_boxes :=
              l.ocr_boxes.take i ++ l.ocr_boxes.drop (i + 1) }) := by
  intro l bid
  constructor
  · intro hnone
    have : firstIdxBy (fun b => b.id = bid) l.ocr_boxes = none :=
      firstIdxBy_eq_none _ (fun b hb => by simp [hnone b hb])
    simp [PageLayout.remove_box_by_id, this]
  · intro i b hget hid hfirst
    have hsome : firstIdxBy (fun b => b.id = bid) l.ocr_boxes = some i :=
      firstIdxBy_eq_some_of _ hget (by simp [hid])
        (fun j hj bj hbj => by simp [hfirst j hj bj hbj])
    have hlt : i < l.ocr_boxes.length := firstIdxBy_lt_length _ hsome
    simp [PageLayout.remove_box_by_id, hsome, PageLayout.remove_ocr_box,
      pyPop_eq hlt]

/-- C10 witness: in a two-box layout, an unmatched id is a strict no-op
and a matched id removes exactly the first matching box, renumbering. -/
theorem c10_witness :
    c10Layout.remove_box_by_id "z" = c10Layout ∧
    c10Layout.remove_box_by_id "b" =
      PageLayout.update_order { c10Layout with ocr_boxes := [c10A] } :=
  ⟨(c10_remove_by_id c10Layout "z").1 (by decide),
   (c10_remove_by_id c10Layout "b").2 1 c10B rfl rfl (by
     intro j hj bj hbj
     have hj0 : j = 0 := by omega
     subst hj0
     have : bj = c10A := by
       simpa [c10Layout] using hbj.symm
     subst this
     decide)⟩

/-- C2, counterexample: `replace_ocr_box` is a public structural mutation
but performs no renumber pass — replacing the only box (order 0) of a
layout with a box of order 7 leaves order multiset {7}, not {0}. -/
theorem c2_counterexample :
    (c2Layout.replace_ocr_box 0 c2ReplBox).map PageLayout.orders =
      .ok [7] ∧
    ([7] : List Int) ≠ rangeOrders 1 := by
  refine ⟨rfl, by decide⟩

/-- C2 (amended): add (at any or no index), remove by index, move and
sort end with a renumber pass, and remove-by-id does when a box matches,
so the order values afterwards are exactly `0, …, n-1`; `replace_ocr_box`
performs no renumber pass (its layout keeps the replacement's own order
value, as the counterexample shows). -/
theorem c2_structural_renumber :
    ∀ (l : PageLayout) (b : OCRBox) (io : Option Nat) (j k : Nat)
      (bid : String),
    (l.add_ocr_box b io).orders = rangeOrders (l.ocr_boxes.length + 1) ∧
    (j < l.ocr_boxes.length →
      (l.remove_ocr_box j).map PageLayout.orders =
        .ok (rangeOrders (l.ocr_boxes.length - 1))) ∧
    (j < l.ocr_boxes.length →
      (l.move_ocr_box j k).map PageLayout.orders =
        .ok (rangeOrders l.ocr_boxes.length)) ∧
    l.sort_boxes.orders = rangeOrders l.ocr_boxes.length ∧
    ((∃ b' ∈ l.ocr_boxes, b'.id = bid) →
      (l.remove_box_by_id bid).orders =
        rangeOrders (l.ocr_boxes.length - 1)) := by
  intro l b io j k bid
  refine ⟨?_, ?_, ?_, ?_, ?_⟩
  · cases io with
    | none =>
      rw [PageLayout.add_ocr_box, orders_update_order]
      simp
    | some i =>
      rw [PageLayout.add_ocr_box, orders_update_order]
      simp [pyInsert_length]
  · intro hj
    simp [PageLayout.remove_ocr_box, pyPop_eq hj, Except.map, bind,
      Except.bind, pure, Except.pure, orders_update_order]
    congr 1
    omega
  · intro hj
    simp [PageLayout.move_ocr_box, pyPop_eq hj, Except.map, bind,
      Except.bind, pure, Except.pure, orders_update_order, pyInsert_length]
    congr 1
    omega
  · rw [PageLayout.sort_boxes, orders_update_order]
    simp
  · intro hex
    obtain ⟨i, hi⟩ := exists_firstIdxBy
      (fun (b' : OCRBox) => decide (b'.id = bid))
      (by obtain ⟨b', hb', hid⟩ := hex; exact ⟨b', hb', by simp [hid]⟩)
    have hlt := firstIdxBy_lt_length _ hi
    rw [PageLayout.remove_box_by_id, hi]
    simp [PageLayout.remove_ocr_box, pyPop_eq hlt, Except.map, bind,
      Except.bind, pure, Except.pure, orders_update_order]
    congr 1
    omega

/-- C2 witness: the renumbering clauses at a concrete layout. -/
theorem c2_witness :
    (c2Layout.add_ocr_box c2ReplBox none).orders = [0, 1] ∧
    (c2Layout.remove_ocr_box 0).map PageLayout.orders = .ok [] ∧
    (c2Layout.move_ocr_box 0 0).map PageLayout.orders = .ok [0] ∧
    c2Layout.sort_boxes.orders = [0] ∧
    (c2Layout.remove_box_by_id "a").orders = [] := by
  have h := c2_structural_renumber c2Layout c2ReplBox none 0 0 "a"
  exact ⟨h.1, h.2.1 (by decide), h.2.2.1 (by decide), h.2.2.2.1,
    h.2.2.2.2 ⟨c2Box, by simp [c2Layout], rfl⟩⟩

/-- C3: the claim says a `to_dict`/`from_dict` round trip is field-equal
for every variant, and the spec's own testable property states the same;
but the variant `from_dict`s (Image/Line/Equation/Table/Noise/Count) set
`ocr_results` to the raw serialized record instead of reconstructing the
Recognition Result.  At a concrete `TableBox` with an attached result,
the round-tripped box holds the raw dict — not equal to the original's
`ocr_results` field — so the round trip is broken for these variants
(while the base-class path reconstructs via `load_ocr_results`). -/
theorem c3_variant_roundtrip_loses_result :
    c3Roundtripped.map (fun b => b.ocr_results) =
      .ok (some (.rawDict (.dict c3Block.to_dict))) ∧
    c3Box.ocr_results = some (.block c3Block) ∧
    some (OcrResField.rawDict (.dict c3Block.to_dict)) ≠
      some (OcrResField.block c3Block) := by
  refine ⟨rfl, rfl, ?_⟩
  intro h
  injection h with h2
  exact OcrResField.noConfusion h2

/-- C4, counterexample: a candidate record whose second fragment's plain
text is empty (and no reject list is supplied) is decided neither
KEEP-SPLIT nor MERGE — `second[0]` raises an `IndexError` — although the
claim requires MERGE in every case that is not KEEP-SPLIT. -/
theorem c4_counterexample :
    check_hyphenated_word none "exam-" "" = none ∧
    (none : Option Bool) ≠ some true := by
  exact ⟨rfl, by simp⟩

/-- C4 (amended): for every candidate record whose second fragment's
markup-stripped plain text is non-empty, the reconstructor decides
KEEP-SPLIT iff that text starts with an upper-case letter or its
case-folded form is in the supplied reject list, and MERGE otherwise,
without consulting the dictionary capability (the spelling check is
disabled); on an empty second fragment not caught by the reject list the
code raises instead of deciding. -/
theorem c4_keep_split_iff :
    ∀ (bl : Option (List String)) (first second : String),
    second ≠ "" →
    (check_hyphenated_word bl first second = some false ↔
      (∃ c l, second.data = c :: l ∧ c.isUpper = true) ∨
      (∃ r, bl = some r ∧ second.toLower ∈ r)) ∧
    (check_hyphenated_word bl first second = some true ↔
      ¬ ((∃ c l, second.data = c :: l ∧ c.isUpper = true) ∨
         (∃ r, bl = some r ∧ second.toLower ∈ r))) := by
  intro bl first second hne
  obtain ⟨c, l, hd⟩ : ∃ c l, second.data = c :: l := by
    cases hsd : second.data with
    | nil => exact absurd (by cases second; simp_all) hne
    | cons c l => exact ⟨c, l, rfl⟩
  have hhead : ∀ c' l', second.data = c' :: l' ↔ c' = c ∧ l' = l := by
    intro c' l'
    rw [hd]
    constructor
    · intro h; injection h with h1 h2; exact ⟨h1.symm, h2.symm⟩
    · rintro ⟨rfl, rfl⟩; rfl
  cases bl with
  | none =>
    by_cases hup : c.isUpper
    · simp [check_hyphenated_word, hd, hup, hhead]
    · simp [check_hyphenated_word, hd, hup, hhead]
  | some r =>
    by_cases hmem : second.toLower ∈ r
    · simp [check_hyphenated_word, hmem]
    · by_cases hup : c.isUpper
      · simp [check_hyphenated_word, hd, hup, hmem, hhead]
      · simp [check_hyphenated_word, hd, hup, hmem, hhead]

/-- C4 witness: "Paris" (capitalized) is kept split, "ple" (lower case,
not in the reject list) is merged. -/
theorem c4_witness :
    check_hyphenated_word (some ["bei"]) "exam-" "Paris" = some false ∧
    check_hyphenated_word none "exam-" "ple" = some true := by
  constructor
  · exact (c4_keep_split_iff (some ["bei"]) "exam-" "Paris" (by decide)).1.mpr
      (Or.inl ⟨'P', "aris".data, rfl, rfl⟩)
  · refine (c4_keep_split_iff none "exam-" "ple" (by decide)).2.mpr ?_
    rintro (⟨c, l, hcl, hup⟩ | ⟨r, hr, _⟩)
    · have hc : c = 'p' ∧ l = ['l', 'e'] := by simpa using hcl.symm
      obtain ⟨rfl, -⟩ := hc
      exact absurd hup (by decide)
    · exact Option.noConfusion hr

/-- C6: the claim (and the spec) say merge replaces box1's geometry with
the union bounding box of both; but the code updates `x`/`y` first and
then computes the width/height from the already-moved origin, so the
merged geometry is not the union: at boxes A = (10,0,5,1) and
B = (0,0,5,1) the code produces (0,0,5,1) while the union bounding box is
(0,0,15,1) (the merged box does not even cover A).  The confidence does
become the max of the two. -/
theorem c6_merge_geometry_not_union :
    (c6Page.merge_ocr_box_with_ocr_box 0 1).map
        (fun pg => pg.layout.ocr_boxes.map OCRBox.rect) =
      .ok [⟨0, 0, 5, 1⟩] ∧
    unionRect c6A.rect c6B.rect = ⟨0, 0, 15, 1⟩ ∧
    (⟨0, 0, 5, 1⟩ : Rect) ≠ ⟨0, 0, 15, 1⟩ ∧
    (c6Page.merge_ocr_box_with_ocr_box 0 1).map
        (fun pg => pg.layout.ocr_boxes.map OCRBox.confidence) =
      .ok [max c6A.confidence c6B.confidence] := by
  refine ⟨rfl, rfl, by decide, rfl⟩

/-- C7, counterexample: converting a box does not carry its observer
list over — the slot's new box has an empty callback list although the
old box had a registered observer. -/
theorem c7_counterexample :
    (c7Page.convert_ocr_box 0 .CAPTION_TEXT).map
        (fun pg => pg.layout.ocr_boxes.map OCRBox.callbacks) =
      .ok [[]] ∧
    c7Page.layout.ocr_boxes.map OCRBox.callbacks = [[5]] ∧
    ([[]] : List (List Nat)) ≠ [[5]] := by
  refine ⟨rfl, rfl, by decide⟩

/-- C7 (amended): the converted box takes over the old box's identity and
order (also class, tag, confidence and geometry), but not its observer
list — the new box starts with no registered callbacks; it is placed in
the same layout slot, and all other boxes and the rest of the page state
are unchanged. -/
theorem c7_convert_frame :
    ∀ (pg : Page) (i : Nat) (t : BoxType) (b nb : OCRBox) (pg' : Page),
    pg.layout.ocr_boxes.get? i = some b →
    b.convert_to t = some nb →
    pg.convert_ocr_box i t = .ok pg' →
    nb.id = b.id ∧ nb.order = b.order ∧ nb.callbacks = [] ∧
    nb.rect = b.rect ∧ nb.class_ = b.class_ ∧ nb.tag = b.tag ∧
    nb.confidence = b.confidence ∧
    pg'.image_path = pg.image_path ∧ pg'.order = pg.order ∧
    pg'.layout.region = pg.layout.region ∧
    pg'.layout.header_y = pg.layout.header_y ∧
    pg'.layout.footer_y = pg.layout.footer_y ∧
    pg'.layout.ocr_boxes = pg.layout.ocr_boxes.set i nb := by
  intro pg i t b nb pg' hget hconv hrun
  have hvalid : pg.is_valid_box_index i = true := by
    simp [Page.is_valid_box_index]
    exact (List.get?_eq_some.1 hget).1
  have hframe : nb.id = b.id ∧ nb.order = b.order ∧ nb.callbacks = [] ∧
      nb.rect = b.rect ∧ nb.class_ = b.class_ ∧ nb.tag = b.tag ∧
      nb.confidence = b.confidence := by
    cases t <;> simp_all [OCRBox.convert_to, BOX_TYPE_MAP, OCRBox.new,
      OCRBox.rect] <;> subst hconv <;> simp
  have hpg : pg' = { pg with layout := { pg.layout with
      ocr_boxes := pg.layout.ocr_boxes.set i nb } } := by
    simp only [Page.convert_ocr_box, hvalid, if_true, hget, hconv,
      pure, Except.pure] at hrun
    injection hrun with h
    exact h.symm
  subst hpg
  exact ⟨hframe.1, hframe.2.1, hframe.2.2.1, hframe.2.2.2.1,
    hframe.2.2.2.2.1, hframe.2.2.2.2.2.1, hframe.2.2.2.2.2.2,
    rfl, rfl, rfl, rfl, rfl, rfl⟩

/-- C7 witness: the amended statement at a concrete page — identity and
order carried over, observers reset, slot replaced in place. -/
theorem c7_witness :
    c7NB.id = c7Box.id ∧ c7NB.order = c7Box.order ∧
    c7NB.callbacks = [] ∧ c7PageAfter.layout.ocr_boxes = [c7NB] ∧
    c7PageAfter.image_path = c7Page.image_path :=
  have h := c7_convert_frame c7Page 0 .CAPTION_TEXT c7Box c7NB
    c7PageAfter rfl rfl rfl
  ⟨h.1, h.2.1, h.2.2.1, h.2.2.2.2.2.2.2.2.2.2.2.2, h.2.2.2.2.2.2.2.1⟩

/-- C8, counterexample: `analyze_page` on a page with an image but no
recognition backend raises ("No OCR processor set for page") instead of
being a logged no-op, contradicting the claim that every precondition
error returns without raising. -/
theorem c8_counterexample :
    c8Page.analyze_page none none (0, 0) (some (0, 0, 10, 10)) false true
      true = .error "No OCR processor set for page" := rfl

/-- C8 (amended): a missing image reference (analyze, recognize) and an
invalid box index (recognize, convert, merge) are logged no-ops — the
call returns normally and the page state is exactly the state before —
but a missing recognition backend makes analyze and recognize raise an
exception rather than return. -/
theorem c8_precondition_handling :
    ∀ (pg : Page) (proc : Option (String → Region → List OCRBox))
      (rec : Option (OCRBox → OCRBox)) (gt : OCRResultBlock → String)
      (settings : Option AnalyzeSettings) (sz : Int × Int) (r : Region)
      (k f1 f2 ce : Bool) (i i1 i2 : Nat) (t : BoxType),
    (pg.image_path = none →
      pg.analyze_page proc settings sz (some r) k f1 f2 = .ok (pg, []) ∧
      pg.recognize_ocr_boxes rec gt (some i) ce = .ok pg ∧
      pg.recognize_ocr_boxes rec gt none ce = .ok pg) ∧
    (pg.image_path ≠ none →
      pg.analyze_page none settings sz (some r) k f1 f2 =
        .error "No OCR processor set for page" ∧
      pg.recognize_ocr_boxes none gt none ce =
        .error "No OCR processor set for page" ∧
      (i < pg.layout.ocr_boxes.length →
        pg.recognize_ocr_boxes none gt (some i) ce =
          .error "No OCR processor set for page") ∧
      (¬ i < pg.layout.ocr_boxes.length →
        pg.recognize_ocr_boxes rec gt (some i) ce = .ok pg)) ∧
    (¬ i < pg.layout.ocr_boxes.length →
      pg.convert_ocr_box i t = .ok pg) ∧
    (¬ (i1 < pg.layout.ocr_boxes.length ∧
        i2 < pg.layout.ocr_boxes.length) →
      pg.merge_ocr_box_with_ocr_box i1 i2 = .ok pg) := by
  intro pg proc rec gt settings sz r k f1 f2 ce i i1 i2 t
  refine ⟨?_, ?_, ?_, ?_⟩
  · intro h
    refine ⟨?_, ?_, ?_⟩ <;>
      simp [Page.analyze_page, Page.recognize_ocr_boxes, h, pure,
        Except.pure]
  · intro h
    obtain ⟨img, himg⟩ := Option.ne_none_iff_exists'.mp h
    refine ⟨?_, ?_, ?_, ?_⟩
    · simp [Page.analyze_page, himg, throw, throwThe, MonadExceptOf.throw]
    · simp [Page.recognize_ocr_boxes, himg, throw, throwThe,
        MonadExceptOf.throw]
    · intro hi
      simp [Page.recognize_ocr_boxes, himg, Page.is_valid_box_index, hi,
        throw, throwThe, MonadExceptOf.throw]
    · intro hni
      simp [Page.recognize_ocr_boxes, himg, Page.is_valid_box_index, hni,
        pure, Except.pure]
  · intro hni
    simp [Page.convert_ocr_box, Page.is_valid_box_index, hni, pure,
      Except.pure]
  · intro hn
    have hb : (!pg.is_valid_box_index i1 || !pg.is_valid_box_index i2)
        = true := by
      simp [Page.is_valid_box_index]
      omega
    rw [Page.merge_ocr_box_with_ocr_box, if_pos hb]
    rfl

/-- C8 witness: the amended statement at a concrete page with an image
path, one box and no backend. -/
theorem c8_witness :
    c8Page.analyze_page none none (0, 0) (some (0, 0, 10, 10)) false true
      true = .error "No OCR processor set for page" ∧
    c8Page.recognize_ocr_boxes none (fun _ => "") (some 7) false =
      .ok c8Page ∧
    c8Page.convert_ocr_box 7 .TABLE = .ok c8Page ∧
    c8Page.merge_ocr_box_with_ocr_box 0 7 = .ok c8Page := by
  have h := c8_precondition_handling c8Page none none (fun _ => "") none
    (0, 0) (0, 0, 10, 10) false true true false 7 0 7 .TABLE
  have himg : c8Page.image_path ≠ none := by simp [c8Page]
  exact ⟨(h.2.1 himg).1, (h.2.1 himg).2.2.2 (by decide),
    h.2.2.1 (by decide), h.2.2.2 (by decide)⟩
